import Mathlib

/-!
Shallow embedding of the `lucastars-webshop` repository pieces that the
specification talks about:

* `Seeder<T>` from `src/api/src/services/GameService.ts` (lines 226-349 of the
  combined file): generic batch seeding (`seed`) and table truncation
  (`truncate`) against a `DatabaseService`.
* `GameService.getGames` WHERE-clause assembly (lines 41-119).
* `CartPageComponent.removeItem` from
  `src/web/src/components/CartPageComponent.ts` (lines 213-226).

The database and the HTTP cart backend are external collaborators; their
visible behaviour (query outcomes, insert result headers, rejections) is
passed in as explicit parameters, and the statements a run issues are
recorded in an event trace so that resource-handling claims can be stated.
JavaScript objects are embedded as ordered association lists, matching the
insertion-order semantics of `Object.keys` / `Object.values`.
-/

/-- A JavaScript value as used by the seeder records (numbers and strings). -/
inductive Val where
  | num (n : Int)
  | str (s : String)
  deriving DecidableEq, Repr

/-- A JavaScript object: an ordered association list from property name to
value, matching insertion-order enumeration of `Object.keys`. -/
abbrev Rec := List (String × Val)

/-- Property lookup on a JavaScript object (first binding wins). -/
def getKey : Rec → String → Option Val
  | [], _ => none
  | (k, v) :: r, key => if k == key then some v else getKey r key

/-- Property assignment `r[key] = v` on a JavaScript object (property names
are unique): an existing property keeps its position and gets the new value,
a new property is appended. -/
def setKey : Rec → String → Val → Rec
  | [], key, v => [(key, v)]
  | p :: r, key, v => if p.1 == key then (key, v) :: r else p :: setKey r key v

/-- A SQL statement issued by the seeder, structured by shape. -/
inductive Stmt where
  | setFkChecks (enabled : Bool)
  | truncateTable (table : String)
  | insertInto (table : String) (columns : List String) (values : List (List Val))
  deriving DecidableEq, Repr

/-- An observable event on the scoped database connection. -/
inductive Ev where
  | acquire
  | stmt (s : Stmt)
  | release
  deriving DecidableEq, Repr

/-- The `ResultSetHeader` returned by a successful bulk insert. -/
structure Header where
  affectedRows : Nat
  insertId : Int
  deriving DecidableEq, Repr

/-- Outcome of a `seed` call: the returned records, or a thrown error. -/
inductive SeedResult where
  | ok (records : List Rec)
  | error (msg : String)
  deriving DecidableEq, Repr

/-- Everything observable about one `seed` call: the connection/query event
trace, the `(columns, values)` payload of the insert if one was issued, the
arguments the generator was invoked with, the upstream record groups as they
stand after the call, and the result. -/
structure SeedOut where
  events : List Ev
  insertQuery : Option (List String × List (List Val))
  genCall : Option (Nat × List (List Rec))
  groupsAfter : List (List Rec)
  result : SeedResult
  deriving DecidableEq, Repr

/-- The `Seeder<T>` instance data: target table, dev-mode flag, the abstract
`getRecords` generator (`none` models the generator throwing) and the
optional `getRecordsDev` override (`none` means not overridden, in which
case the class default delegates to `getRecords`). -/
structure SeederM where
  table : String
  devMode : Bool
  getRecords : Nat → List (List Rec) → Option (List Rec)
  getRecordsDev : Option (Nat → List (List Rec) → Option (List Rec))

/-- The generator `seed` actually runs: `getRecordsDev` in dev mode (which
defaults to `getRecords` when not overridden), `getRecords` otherwise. -/
def SeederM.effGen (s : SeederM) : Nat → List (List Rec) → Option (List Rec) :=
  if s.devMode then s.getRecordsDev.getD s.getRecords else s.getRecords

/-- The id back-assignment loop `records[i].id = result.insertId + i`. -/
def assignIds : List Rec → Int → List Rec
  | [], _ => []
  | r :: rs, start => setKey r "id" (Val.num start) :: assignIds rs (start + 1)

/-- Model of `Seeder.seed(count, ...seederRecords)`, parameterised by the insert
query's outcome (`none` models the database throwing on the insert).
Mirrors the source: the connection is acquired first, then the records are
generated, then the zero-records early return — all before the
`try`/`finally` that guards the insert — so only the insert phase releases
the connection. -/
def SeederM.seed (s : SeederM) (count : Nat) (seederRecords : List (List Rec))
    (insertRes : Option Header) : SeedOut :=
  match s.effGen count seederRecords with
  | none =>
      { events := [Ev.acquire], insertQuery := none,
        genCall := some (count, seederRecords), groupsAfter := seederRecords,
        result := SeedResult.error "generator" }
  | some [] =>
      { events := [Ev.acquire], insertQuery := none,
        genCall := some (count, seederRecords), groupsAfter := seederRecords,
        result := SeedResult.ok [] }
  | some (r0 :: rest) =>
      let records : List Rec := r0 :: rest
      let columns : List String := r0.map Prod.fst
      let values : List (List Val) := records.map (fun r => r.map Prod.snd)
      let insertEv : Ev := Ev.stmt (Stmt.insertInto s.table columns values)
      match insertRes with
      | none =>
          { events := [Ev.acquire, insertEv, Ev.release],
            insertQuery := some (columns, values),
            genCall := some (count, seederRecords), groupsAfter := seederRecords,
            result := SeedResult.error "query" }
      | some h =>
          if h.affectedRows ≠ records.length then
            { events := [Ev.acquire, insertEv, Ev.release],
              insertQuery := some (columns, values),
              genCall := some (count, seederRecords), groupsAfter := seederRecords,
              result := SeedResult.error
                ("Failed to insert " ++ toString records.length ++ " records") }
          else
            { events := [Ev.acquire, insertEv, Ev.release],
              insertQuery := some (columns, values),
              genCall := some (count, seederRecords), groupsAfter := seederRecords,
              result := SeedResult.ok (assignIds records h.insertId) }

/-- Run a sequence of statements, each of which may throw (`ok st = false`);
execution stops at the first throwing statement. Returns the statements
attempted and whether the sequence completed. -/
def runStmts : List Stmt → (Stmt → Bool) → List Ev × Bool
  | [], _ => ([], true)
  | st :: rest, ok =>
      if ok st then
        let o := runStmts rest ok
        (Ev.stmt st :: o.1, o.2)
      else
        ([Ev.stmt st], false)

/-- Model of `Seeder.truncate()`, parameterised by each statement's outcome. Mirrors
the source: the three statements run in sequence inside `try`, and the
`finally` clause releases the connection (and does nothing else). The
returned `Bool` is `true` iff no statement threw. -/
def SeederM.truncate (s : SeederM) (ok : Stmt → Bool) : List Ev × Bool :=
  let body := runStmts
    [Stmt.setFkChecks false, Stmt.truncateTable s.table, Stmt.setFkChecks true] ok
  (Ev.acquire :: body.1 ++ [Ev.release], body.2)

/-! ## GameService.getGames filter assembly -/

/-- The fields of `GetGamesOptions` that feed the WHERE clause; `none`
models an absent (`undefined`) field. -/
structure GetGamesOptions where
  tags : Option (List Int)
  minPrice : Option Int
  maxPrice : Option Int
  deriving Repr

/-- Step `whereClause += whereClause ? " AND " : "WHERE "; whereClause += frag`. -/
def addCond (w frag : String) : String :=
  w ++ (if w = "" then "WHERE " else " AND ") ++ frag

/-- One price-bound step: `if (options.minPrice) { ... }` — a JavaScript
number is truthy exactly when it is present and nonzero. -/
def priceCond (w : String) (vals : List Int) (price : Option Int) (frag : String) :
    String × List Int :=
  match price with
  | some v => if v ≠ 0 then (addCond w frag, vals ++ [v]) else (w, vals)
  | none => (w, vals)

/-- The tags step: join and IN-list added when `options.tags` is present and
non-empty. -/
def tagsCond (w : String) (vals : List Int) (tags : Option (List Int)) :
    String × String × List Int :=
  match tags with
  | some ts =>
      if ts.length > 0 then
        ("JOIN games_tags gt ON g.id = gt.gameId",
         addCond w ("gt.tagId IN (" ++
           String.intercalate "," (ts.map (fun _ => "?")) ++ ")"),
         vals ++ ts)
      else ("", w, vals)
  | none => ("", w, vals)

/-- The filter-assembly prefix of `GameService.getGames` (lines 49-70):
returns `(tagJoin, whereClause, whereClauseValues)`. -/
def buildFilters (o : GetGamesOptions) : String × String × List Int :=
  let t := tagsCond "" [] o.tags
  let p1 := priceCond t.2.1 t.2.2 o.minPrice "g.price >= ?"
  let p2 := priceCond p1.1 p1.2 o.maxPrice "g.price <= ?"
  (t.1, p2.1, p2.2)

/-! ## CartPageComponent.removeItem -/

/-- A cart item as rendered by the cart page. -/
structure CartItem where
  gameId : Int
  name : String
  price : Int
  quantity : Nat
  thumbnail : String
  description : String
  deriving DecidableEq, Repr

/-- The component's local item list, the backend cart it talks to over HTTP,
whether `render()` has run, and the console error log. -/
structure CartState where
  items : List CartItem
  backend : List CartItem
  rendered : Bool
  errorLog : List String
  deriving DecidableEq, Repr

/-- Console message logged when `deleteCartItem` rejects. -/
def deleteErrMsg : String := "Fout bij verwijderen van item uit winkelwagen:"

/-- Console message logged when `updateCart` rejects. -/
def updateErrMsg : String := "Fout bij bijwerken van winkelwagen:"

/-- Model of `CartPageComponent.removeItem(index)`, parameterised by whether the two
backend calls reject. On success `deleteCartItem(gameId)` removes that game
from the backend cart and `updateCart(items)` replaces the backend cart; a
rejection leaves the backend unchanged and is caught and logged. Mirrors the
source: splice first, then the guarded delete, then `updateBackendCart()`
(which swallows its own errors), then `render()`. -/
def removeItem (st : CartState) (index : Nat) (dRej uRej : Bool) : CartState :=
  match st.items.get? index with
  | none =>
      -- items[index] is undefined: splice removes nothing and reading
      -- item.gameId throws inside the try, which is caught and logged
      let log1 := st.errorLog ++ [deleteErrMsg]
      let (backend2, log2) :=
        if uRej then (st.backend, log1 ++ [updateErrMsg]) else (st.items, log1)
      { items := st.items, backend := backend2, rendered := true, errorLog := log2 }
  | some item =>
      let items2 := st.items.eraseIdx index
      let (backend1, log1) :=
        if dRej then (st.backend, st.errorLog ++ [deleteErrMsg])
        else (st.backend.filter (fun it => it.gameId != item.gameId), st.errorLog)
      let (backend2, log2) :=
        if uRej then (backend1, log1 ++ [updateErrMsg]) else (items2, log1)
      { items := items2, backend := backend2, rendered := true, errorLog := log2 }

/-! ## Concrete instances used by counterexamples and witnesses -/

/-- A seeder whose generator yields no records. -/
def emptySeeder : SeederM :=
  { table := "games", devMode := false,
    getRecords := fun _ _ => some [], getRecordsDev := none }

/-- A seeder whose generator throws. -/
def throwingSeeder : SeederM :=
  { table := "games", devMode := false,
    getRecords := fun _ _ => none, getRecordsDev := none }

/-- Statement outcomes under which the row-removal statement throws and
everything else succeeds. -/
def failTrunc : Stmt → Bool
  | Stmt.truncateTable _ => false
  | _ => true

/-! ## C1: truncate and FOREIGN_KEY_CHECKS -/

/-- C1 counterexample: when the `TRUNCATE TABLE` statement throws, the run
issues the enforcement-disable statement but never the enforcement-enable
statement, and the error propagates — the disable/enable pair is not
matched, refuting the claim that enforcement is always restored. -/
theorem truncate_fk_unmatched_on_trunc_error :
    Ev.stmt (Stmt.setFkChecks false) ∈ (emptySeeder.truncate failTrunc).1 ∧
    Ev.stmt (Stmt.setFkChecks true) ∉ (emptySeeder.truncate failTrunc).1 ∧
    (emptySeeder.truncate failTrunc).2 = false := by
  decide

/-- C1 amended: `truncate` releases the connection on every path (release is
the last event of every run), but it issues the enforcement-enable statement
exactly when both the enforcement-disable and the row-removal statements
succeeded — the `finally` clause only releases the connection and does not
restore enforcement after a failure. -/
theorem truncate_fk_restore_amended (s : SeederM) (ok : Stmt → Bool) :
    (s.truncate ok).1.getLast? = some Ev.release ∧
    (Ev.stmt (Stmt.setFkChecks true) ∈ (s.truncate ok).1 ↔
      (ok (Stmt.setFkChecks false) = true ∧ ok (Stmt.truncateTable s.table) = true)) := by
  cases h0 : ok (Stmt.setFkChecks false) <;>
    cases h1 : ok (Stmt.truncateTable s.table) <;>
      cases h2 : ok (Stmt.setFkChecks true) <;>
        simp [SeederM.truncate, runStmts, h0, h1, h2]

/-! ## C2: seed must release the connection on every exit path -/

/-- C2: the claim is right and the code is wrong. The connection is acquired
before the `try`/`finally` block; on the zero-records early return the call
returns successfully without ever releasing the connection, and when the
generator throws the error propagates with the connection still held. -/
theorem seed_leaks_connection_before_insert_phase :
    (emptySeeder.seed 0 [] none).events = [Ev.acquire] ∧
    Ev.release ∉ (emptySeeder.seed 0 [] none).events ∧
    (emptySeeder.seed 0 [] none).result = SeedResult.ok [] ∧
    Ev.release ∉ (throwingSeeder.seed 3 [] none).events ∧
    (throwingSeeder.seed 3 [] none).result = SeedResult.error "generator" := by
  decide

/-! ## Helper lemmas about JavaScript-object operations -/

/-- Assigning a property and reading it back yields the assigned value. -/
theorem getKey_setKey (r : Rec) (k : String) (v : Val) :
    getKey (setKey r k v) k = some v := by
  induction r with
  | nil => simp [setKey, getKey]
  | cons p rest ih =>
    by_cases hk : p.1 = k
    · simp [setKey, getKey, hk]
    · simp [setKey, getKey, hk, ih]

/-- Id back-assignment preserves the number of records. -/
theorem assignIds_length (l : List Rec) (st : Int) :
    (assignIds l st).length = l.length := by
  induction l generalizing st with
  | nil => rfl
  | cons r rs ih => simp [assignIds, ih]

/-- Record `i` of the back-assignment of `l` starting at `st` is record `i`
of `l` with its `id` property set to `st + i`. -/
theorem assignIds_get? (l : List Rec) (st : Int) (i : Nat) (hi : i < l.length) :
    ∃ r, l.get? i = some r ∧
      (assignIds l st).get? i = some (setKey r "id" (Val.num (st + i))) := by
  induction l generalizing st i with
  | nil => simp at hi
  | cons r rs ih =>
    cases i with
    | zero =>
      refine ⟨r, rfl, ?_⟩
      show (setKey r "id" (Val.num st) :: assignIds rs (st + 1)).get? 0 = _
      simp
    | succ n =>
      obtain ⟨r', h1, h2⟩ := ih (st + 1) n (by simpa using hi)
      refine ⟨r', h1, ?_⟩
      have key : st + 1 + (n : Int) = st + ((n + 1 : Nat) : Int) := by push_cast; ring
      show (setKey r "id" (Val.num st) :: assignIds rs (st + 1)).get? (n + 1) = _
      rw [List.get?_cons_succ, h2, key]

/-! ## C4: successful seed returns count records with contiguous ids -/

/-- C4: when the generator yields a non-empty batch of `count` records and
the insert reports a matching affected-row count, `seed` returns the batch
with ids attached, exactly `count` records, and record `i` carries id
`insertId + i` — a contiguous ascending run in generation order. -/
theorem seed_returns_contiguous_ids (s : SeederM) (count : Nat)
    (gs : List (List Rec)) (recs : List Rec) (h : Header)
    (hgen : s.effGen count gs = some recs) (hne : recs ≠ [])
    (hcount : recs.length = count) (haff : h.affectedRows = recs.length) :
    (s.seed count gs (some h)).result = SeedResult.ok (assignIds recs h.insertId) ∧
    (assignIds recs h.insertId).length = count ∧
    ∀ i, i < count →
      ((assignIds recs h.insertId).get? i).bind (fun r => getKey r "id") =
        some (Val.num (h.insertId + i)) := by
  obtain ⟨r0, rest, rfl⟩ : ∃ r0 rest, recs = r0 :: rest := by
    cases recs with
    | nil => exact absurd rfl hne
    | cons a l => exact ⟨a, l, rfl⟩
  refine ⟨?_, ?_, ?_⟩
  · simp [SeederM.seed, hgen, haff]
  · rw [assignIds_length]; exact hcount
  · intro i hi
    obtain ⟨r, _, h2⟩ :=
      assignIds_get? (r0 :: rest) h.insertId i (by rw [hcount]; exact hi)
    rw [h2]
    simp [getKey_setKey]

/-- A three-record `{name, price}` seeder as in the specification example. -/
def seeder3 : SeederM :=
  { table := "games", devMode := false,
    getRecords := fun _ _ => some
      [[("name", Val.str "a"), ("price", Val.num 10)],
       [("name", Val.str "b"), ("price", Val.num 20)],
       [("name", Val.str "c"), ("price", Val.num 30)]],
    getRecordsDev := none }

/-- C4 witness: seeding 3 records with insert starting id 101 returns them
with ids 101, 102, 103 in generation order. -/
theorem seed_returns_contiguous_ids_witness :
    (seeder3.seed 3 [] (some { affectedRows := 3, insertId := 101 })).result =
      SeedResult.ok
        [[("name", Val.str "a"), ("price", Val.num 10), ("id", Val.num 101)],
         [("name", Val.str "b"), ("price", Val.num 20), ("id", Val.num 102)],
         [("name", Val.str "c"), ("price", Val.num 30), ("id", Val.num 103)]] := by
  have h := seed_returns_contiguous_ids seeder3 3 []
      [[("name", Val.str "a"), ("price", Val.num 10)],
       [("name", Val.str "b"), ("price", Val.num 20)],
       [("name", Val.str "c"), ("price", Val.num 30)]]
      { affectedRows := 3, insertId := 101 } rfl (by simp) rfl rfl
  rw [h.1]
  decide

/-! ## C3: affected-row mismatch fails before id assignment -/

/-- C3: when the insert reports an affected-row count different from the
number of generated records, `seed` throws the insert-count-mismatch error
and returns no records with ids attached — the error precedes the
id-assignment loop. -/
theorem seed_mismatch_error (s : SeederM) (count : Nat)
    (gs : List (List Rec)) (recs : List Rec) (hdr : Header)
    (hgen : s.effGen count gs = some recs) (hne : recs ≠ [])
    (hmis : hdr.affectedRows ≠ recs.length) :
    (s.seed count gs (some hdr)).result =
      SeedResult.error ("Failed to insert " ++ toString recs.length ++ " records") ∧
    ∀ l, (s.seed count gs (some hdr)).result ≠ SeedResult.ok l := by
  obtain ⟨r0, rest, rfl⟩ : ∃ r0 rest, recs = r0 :: rest := by
    cases recs with
    | nil => exact absurd rfl hne
    | cons a l => exact ⟨a, l, rfl⟩
  have h1 : (s.seed count gs (some hdr)).result =
      SeedResult.error ("Failed to insert " ++ toString (r0 :: rest).length ++ " records") := by
    have hm : hdr.affectedRows ≠ rest.length + 1 := by simpa using hmis
    simp [SeederM.seed, hgen, hm]
  refine ⟨h1, fun l => ?_⟩
  rw [h1]
  simp

/-- C3 witness: a 3-record batch with a reported affected-row count of 2
fails with the mismatch error and yields no records. -/
theorem seed_mismatch_error_witness :
    (seeder3.seed 3 [] (some { affectedRows := 2, insertId := 101 })).result =
      SeedResult.error "Failed to insert 3 records" ∧
    (seeder3.seed 3 [] (some { affectedRows := 2, insertId := 101 })).result ≠
      SeedResult.ok [] := by
  have h := seed_mismatch_error seeder3 3 []
      [[("name", Val.str "a"), ("price", Val.num 10)],
       [("name", Val.str "b"), ("price", Val.num 20)],
       [("name", Val.str "c"), ("price", Val.num 30)]]
      { affectedRows := 2, insertId := 101 } rfl (by simp) (by decide)
  refine ⟨?_, h.2 []⟩
  rw [h.1]
  decide

/-! ## C5: zero generated records is a silent no-op -/

/-- C5: when the selected generator produces zero records, `seed` returns
the empty sequence, issues no insert query, and sends no statement to the
database at all. -/
theorem seed_zero_records_noop (s : SeederM) (count : Nat)
    (gs : List (List Rec)) (insertRes : Option Header)
    (hgen : s.effGen count gs = some []) :
    (s.seed count gs insertRes).result = SeedResult.ok [] ∧
    (s.seed count gs insertRes).insertQuery = none ∧
    ∀ q, Ev.stmt q ∉ (s.seed count gs insertRes).events := by
  refine ⟨?_, ?_, ?_⟩ <;> simp [SeederM.seed, hgen]

/-- C5 witness: the empty-generator seeder at `count = 0` returns the empty
sequence and issues no statement. -/
theorem seed_zero_records_noop_witness :
    (emptySeeder.seed 0 [] (some { affectedRows := 0, insertId := 1 })).result =
      SeedResult.ok [] ∧
    (emptySeeder.seed 0 [] (some { affectedRows := 0, insertId := 1 })).insertQuery =
      none ∧
    ∀ q, Ev.stmt q ∉
      (emptySeeder.seed 0 [] (some { affectedRows := 0, insertId := 1 })).events :=
  seed_zero_records_noop emptySeeder 0 [] (some { affectedRows := 0, insertId := 1 }) rfl

/-! ## C6: dev mode falls back to the default generator -/

/-- C6: for a seeder whose dev-mode generator is not overridden, a `seed`
call in dev mode is indistinguishable from a `seed` call in non-dev mode:
`getRecordsDev` defaults to `getRecords`. -/
theorem seed_dev_fallback (s : SeederM) (hdev : s.getRecordsDev = none)
    (count : Nat) (gs : List (List Rec)) (insertRes : Option Header) :
    ({ s with devMode := true } : SeederM).seed count gs insertRes =
      ({ s with devMode := false } : SeederM).seed count gs insertRes := by
  have hg : ({ s with devMode := true } : SeederM).effGen =
      ({ s with devMode := false } : SeederM).effGen := by
    simp [SeederM.effGen, hdev]
  unfold SeederM.seed
  rw [hg]

/-- C6 witness: the three-record seeder with only the default generator
behaves identically in dev mode and in non-dev mode. -/
theorem seed_dev_fallback_witness :
    ({ seeder3 with devMode := true } : SeederM).seed 3 []
        (some { affectedRows := 3, insertId := 101 }) =
      ({ seeder3 with devMode := false } : SeederM).seed 3 []
        (some { affectedRows := 3, insertId := 101 }) :=
  seed_dev_fallback seeder3 rfl 3 [] (some { affectedRows := 3, insertId := 101 })

/-! ## C7: insert column list and value tuples -/

/-- A seeder whose two records have the same column set but list the
properties in different orders. -/
def mixedOrderSeeder : SeederM :=
  { table := "games", devMode := false,
    getRecords := fun _ _ => some
      [[("a", Val.num 1), ("b", Val.num 2)],
       [("b", Val.num 3), ("a", Val.num 4)]],
    getRecordsDev := none }

/-- C7 counterexample: both records share the column set `{a, b}` and the
insert's column list is the first record's keys `[a, b]`, but the second
record's value tuple is `[3, 4]` — its values in its own property order —
while positionally in the column order `[a, b]` it would have to be
`[4, 3]`: the tuple's first entry is 3 although the record's value for
column `a` is 4. -/
theorem seed_insert_not_positional :
    (([("b", Val.num 3), ("a", Val.num 4)] : Rec).map Prod.fst).toFinset =
      (([("a", Val.num 1), ("b", Val.num 2)] : Rec).map Prod.fst).toFinset ∧
    (mixedOrderSeeder.seed 2 [] (some { affectedRows := 2, insertId := 1 })).insertQuery =
      some (["a", "b"], [[Val.num 1, Val.num 2], [Val.num 3, Val.num 4]]) ∧
    getKey [("b", Val.num 3), ("a", Val.num 4)] "a" = some (Val.num 4) ∧
    Val.num 3 ≠ Val.num 4 := by
  decide

/-- In an object with distinct property names, the value positioned under
the `i`-th property name is the `i`-th value. -/
theorem getKey_positional (r : Rec) (i : Nat) (k : String)
    (hk : (r.map Prod.fst).get? i = some k)
    (hnd : (r.map Prod.fst).Nodup) :
    getKey r k = (r.map Prod.snd).get? i := by
  induction r generalizing i with
  | nil => simp at hk
  | cons p rest ih =>
    cases i with
    | zero =>
      simp only [List.map_cons, List.get?_cons_zero, Option.some_inj] at hk
      subst hk
      simp [getKey]
    | succ n =>
      simp only [List.map_cons, List.get?_cons_succ] at hk
      have hmem : k ∈ rest.map Prod.fst := List.get?_mem hk
      have hhead : p.1 ∉ rest.map Prod.fst :=
        (List.nodup_cons.mp (by simpa using hnd)).1
      have hne : (p.1 == k) = false := by
        apply beq_eq_false_iff_ne.mpr
        intro he
        exact hhead (he ▸ hmem)
      have htail : (rest.map Prod.fst).Nodup :=
        (List.nodup_cons.mp (by simpa using hnd)).2
      simp only [getKey, hne, Bool.false_eq_true, if_false, List.map_cons,
        List.get?_cons_succ]
      exact ih n hk htail

/-- C7 amended: the insert's column list is the first record's keys and each
record contributes one tuple of its values in the record's own property
order; when every record lists its properties in the same order as the
first record (and the column names are distinct), the tuples are positional
in the column order. -/
theorem seed_insert_columns_amended (s : SeederM) (count : Nat)
    (gs : List (List Rec)) (r0 : Rec) (rest : List Rec)
    (insertRes : Option Header)
    (hgen : s.effGen count gs = some (r0 :: rest))
    (hkeys : ∀ r ∈ (r0 :: rest), r.map Prod.fst = r0.map Prod.fst)
    (hnd : (r0.map Prod.fst).Nodup) :
    (s.seed count gs insertRes).insertQuery =
      some (r0.map Prod.fst, (r0 :: rest).map (fun r => r.map Prod.snd)) ∧
    ∀ r ∈ (r0 :: rest), ∀ i k, (r0.map Prod.fst).get? i = some k →
      getKey r k = (r.map Prod.snd).get? i := by
  constructor
  · cases insertRes with
    | none => simp [SeederM.seed, hgen]
    | some h =>
      by_cases haff : h.affectedRows = rest.length + 1 <;>
        simp [SeederM.seed, hgen, haff]
  · intro r hr i k hik
    refine getKey_positional r i k ?_ ?_
    · rw [hkeys r hr]; exact hik
    · rw [hkeys r hr]; exact hnd

/-- C7 witness for the amended claim: a uniform `{name, price}` batch gets
column list `[name, price]` and positional value tuples. -/
theorem seed_insert_columns_amended_witness :
    (seeder3.seed 3 [] (some { affectedRows := 3, insertId := 101 })).insertQuery =
      some (["name", "price"],
        [[Val.str "a", Val.num 10], [Val.str "b", Val.num 20], [Val.str "c", Val.num 30]]) ∧
    ∀ r ∈ ([[("name", Val.str "a"), ("price", Val.num 10)],
            [("name", Val.str "b"), ("price", Val.num 20)],
            [("name", Val.str "c"), ("price", Val.num 30)]] : List Rec),
      ∀ i k, (["name", "price"] : List String).get? i = some k →
        getKey r k = (r.map Prod.snd).get? i := by
  have h := seed_insert_columns_amended seeder3 3 []
      [("name", Val.str "a"), ("price", Val.num 10)]
      [[("name", Val.str "b"), ("price", Val.num 20)],
       [("name", Val.str "c"), ("price", Val.num 30)]]
      (some { affectedRows := 3, insertId := 101 })
      rfl (by decide) (by decide)
  exact h

/-! ## C8: upstream record groups are passed through unchanged -/

/-- C8: every `seed` run invokes the selected generator with exactly the
upstream record groups it was given, and those groups are unchanged when
the call returns or throws — id assignment touches only the generated
batch. -/
theorem seed_preserves_upstream_groups (s : SeederM) (count : Nat)
    (gs : List (List Rec)) (insertRes : Option Header) :
    (s.seed count gs insertRes).groupsAfter = gs ∧
    (s.seed count gs insertRes).genCall = some (count, gs) := by
  cases hg : s.effGen count gs with
  | none => simp [SeederM.seed, hg]
  | some recs =>
    cases recs with
    | nil => simp [SeederM.seed, hg]
    | cons r0 rest =>
      cases insertRes with
      | none => simp [SeederM.seed, hg]
      | some h =>
        by_cases haff : h.affectedRows = rest.length + 1 <;>
          simp [SeederM.seed, hg, haff]

/-! ## C9: a zero price bound is treated as an absent bound -/

/-- C9: `getGames` builds the same tag join, WHERE clause and parameter
list for `minPrice = 0` (resp. `maxPrice = 0`) as for an absent bound: a
zero bound is falsy and adds no price filter. -/
theorem getGames_zero_price_no_filter (o : GetGamesOptions) :
    buildFilters { o with minPrice := some 0 } =
      buildFilters { o with minPrice := none } ∧
    buildFilters { o with maxPrice := some 0 } =
      buildFilters { o with maxPrice := none } := by
  constructor <;> simp [buildFilters, priceCond]

/-! ## C10: removeItem removes locally even when the backend rejects -/

/-- C10: for a valid index, `removeItem` always removes the item from the
local list and re-renders, even when the backend delete call rejects; the
rejection is only logged, and when the backend is unreachable (both calls
reject) the backend cart is left unchanged, no longer matching the local
list. -/
theorem removeItem_local_removal_despite_reject (st : CartState) (index : Nat)
    (dRej uRej : Bool) (h : index < st.items.length) :
    (removeItem st index dRej uRej).items = st.items.eraseIdx index ∧
    (removeItem st index dRej uRej).rendered = true ∧
    (dRej = true → deleteErrMsg ∈ (removeItem st index dRej uRej).errorLog) ∧
    (dRej = true → uRej = true →
      (removeItem st index dRej uRej).backend = st.backend) := by
  have hsome : st.items[index]? = some st.items[index] :=
    List.getElem?_eq_getElem h
  cases dRej <;> cases uRej <;>
    simp [removeItem, hsome]

/-- A one-item cart whose backend holds the same item. -/
def cartStateW : CartState :=
  { items := [{ gameId := 7, name := "g", price := 10, quantity := 1,
                thumbnail := "t", description := "d" }],
    backend := [{ gameId := 7, name := "g", price := 10, quantity := 1,
                  thumbnail := "t", description := "d" }],
    rendered := false, errorLog := [] }

/-- C10 witness: removing index 0 while both backend calls reject empties
the local list, renders, logs the delete failure, and leaves the backend
cart still holding the item. -/
theorem removeItem_local_removal_witness :
    (removeItem cartStateW 0 true true).items = [] ∧
    (removeItem cartStateW 0 true true).rendered = true ∧
    deleteErrMsg ∈ (removeItem cartStateW 0 true true).errorLog ∧
    (removeItem cartStateW 0 true true).backend = cartStateW.backend := by
  have h := removeItem_local_removal_despite_reject cartStateW 0 true true
    (by decide)
  exact ⟨h.1, h.2.1, h.2.2.1 rfl, h.2.2.2 rfl rfl⟩
